import Mathlib

/-!
Shallow embedding of the rule-application engine of the `rules_generator`
repository (`src/firstbase/rule_applier.py`), together with theorems that
check the natural-language specification's claims against it.

Modelling conventions:
* A cell of the tabular dataset is a `Value`: a number (machine floats are
  modelled as exact rationals), a piece of text, a boolean, or missing
  (pandas `NaN`/`None`).
* A `DataFrame` is an ordered association list of named columns.
* The Python `re` module is an external collaborator, so a compiled pattern
  is modelled abstractly by `RePattern`: its validity bit (an invalid source
  pattern raises `re.error` when first compiled), its anchored match
  function (`re.match`, the semantics used by `pandas.Series.str.match`)
  and its global substitution function (`pandas.Series.str.replace` with
  `regex=True`, taking the replacement template and the subject text).
* A Python exception escaping the engine is modelled by `Except.error`;
  `apply_rules` therefore returns `Except ApplyError (DataFrame × List LogEntry)`.
-/

namespace RulesGen

/-- One cell of the tabular dataset. -/
inductive Value where
  | num (q : Rat)
  | str (s : String)
  | bool (b : Bool)
  | null
deriving DecidableEq, Repr

/-- Text representation of a cell, as produced by `Series.astype(str)`:
numbers print with a decimal point, booleans as `True`/`False`, and a
missing value becomes the literal text `nan`. -/
def Value.toText : Value → String
  | .num q => if q.den = 1 then toString q.num ++ ".0" else toString q
  | .str s => s
  | .bool b => if b then "True" else "False"
  | .null => "nan"

/-- `pd.notna`: every cell except a missing one is present. -/
def Value.notna : Value → Bool
  | .null => false
  | _ => true

/-- Abstract model of a source regular-expression pattern handed to the
`re` collaborator: whether it compiles, its anchored-at-start match
predicate, and its global substitution function (replacement template,
then subject). -/
structure RePattern where
  valid : Bool
  matchesFrom : String → Bool
  subAll : String → String → String

/-- A column-oriented table: ordered association list of named columns. -/
structure DataFrame where
  cols : List (String × List Value)
deriving DecidableEq, Repr

/-- Lookup of a named column in the backing association list. -/
def lookupCol : List (String × List Value) → String → Option (List Value)
  | [], _ => none
  | (c, v) :: rest, c' => if c = c' then some v else lookupCol rest c'

/-- `df[c]` as an optional column. -/
def DataFrame.get? (df : DataFrame) (c : String) : Option (List Value) :=
  lookupCol df.cols c

/-- `df[c]`, defaulting to the empty column. -/
def DataFrame.getD (df : DataFrame) (c : String) : List Value :=
  (df.get? c).getD []

/-- `c in df.columns`. -/
def DataFrame.hasCol (df : DataFrame) (c : String) : Bool :=
  (df.get? c).isSome

/-- Write a column in place, appending it at the end when new
(`df[c] = v` on a pandas frame). -/
def setColList : List (String × List Value) → String → List Value → List (String × List Value)
  | [], c, v => [(c, v)]
  | (c', v') :: rest, c, v =>
    if c' = c then (c, v) :: rest else (c', v') :: setColList rest c v

/-- `df[c] = v`. -/
def DataFrame.set (df : DataFrame) (c : String) (v : List Value) : DataFrame :=
  ⟨setColList df.cols c v⟩

/-- One rule record as consumed by `apply_rules`.  Fields that the engine
reads with `rule.get(...)` and a `None` default are `Option`s; the string
fields defaulted to `""` and the boolean defaulted to `False` carry those
defaults directly. -/
structure RuleRecord where
  rule_id : Option String
  description : String
  reasoning : String
  rule_type : Option String
  pattern : Option RePattern
  replacement : Option String
  columns : List String
  flag_on_match : Bool

/-- One execution-log entry (`log.append({...})` in the handlers); the two
type-specific counters are optional because each handler emits at most one
of them. -/
structure LogEntry where
  rule_id : Option String
  type : String
  column : String
  flagged_count : Option Nat
  imputed_count : Option Nat
  description : String
  reasoning : String
deriving DecidableEq, Repr

/-- A Python exception escaping a handler. -/
inductive ApplyError where
  | patternCompile
  | keyError (col : String)
  | typeError
deriving DecidableEq, Repr

/-- How `rule_id` appears inside the f-string `f"{col}_flag_{rule_id}"`
(Python formats `None` as the text `None`). -/
def ruleIdText : Option String → String
  | some s => s
  | none => "None"

/-- `df[c]` where a missing column raises `KeyError`. -/
def getColE (df : DataFrame) (c : String) : Except ApplyError (List Value) :=
  match df.get? c with
  | some vs => .ok vs
  | none => .error (.keyError c)

/-- Round to the nearest integer, ties to even — the rounding used by
IEEE-754 floats and hence by `Series.round` and `%`-formatting. -/
def roundHalfEven (q : Rat) : Int :=
  let f : Int := ⌊q⌋
  let frac : Rat := q - f
  if frac < 1/2 then f
  else if 1/2 < frac then f + 1
  else if f % 2 = 0 then f else f + 1

/-- Round to `places` decimal places, ties to even (`Series.round(places)`). -/
def roundTo (places : Nat) (q : Rat) : Rat :=
  (roundHalfEven (q * (10 : Rat) ^ places) : Rat) / (10 : Rat) ^ places

/-- Numeric view of one cell under pandas arithmetic: numbers and booleans
coerce to a number, a missing value stays missing (`NaN` propagates), and
text raises `TypeError`. -/
def Value.asNum? : Value → Except ApplyError (Option Rat)
  | .num q => .ok (some q)
  | .bool b => .ok (some (if b then 1 else 0))
  | .null => .ok none
  | .str _ => .error .typeError

/-- Numeric view of a whole column (see `Value.asNum?`). -/
def colNums : List Value → Except ApplyError (List (Option Rat))
  | [] => .ok []
  | v :: vs => do
    let n ← v.asNum?
    let rest ← colNums vs
    .ok (n :: rest)

/-- Cell holding an optional number (`NaN` when absent). -/
def numOpt : Option Rat → Value
  | some q => Value.num q
  | none => Value.null

/-- Pointwise zip of three lists, stopping at the shortest. -/
def zipWith3 (f : α → β → γ → δ) : List α → List β → List γ → List δ
  | a :: as, b :: bs, c :: cs => f a b c :: zipWith3 f as bs cs
  | _, _, _ => []

/-- Pointwise zip of four lists, stopping at the shortest. -/
def zipWith4 (f : α → β → γ → δ → ε) : List α → List β → List γ → List δ → List ε
  | a :: as, b :: bs, c :: cs, d :: ds => f a b c d :: zipWith4 f as bs cs ds
  | _, _, _, _ => []

/-- Row-wise arithmetic sanity check of `_apply_anomaly_flag`
(`(df[col] - (df["Price Per Unit"] * df["Quantity"]).round(2)).abs().gt(0.01)`):
a row with a missing operand compares as `NaN > tol`, i.e. not flagged. -/
def arithInvalidRow (p q t : Option Rat) : Bool :=
  match p, q, t with
  | some p, some q, some t => decide (1/100 < |t - roundTo 2 (p * q)|)
  | _, _, _ => false

/-- `df[col].astype(str).str.match(pattern, na=False)`: after `astype(str)`
no cell is missing, so the mask is the anchored match of each cell's text.
A `None` pattern raises `TypeError` inside `str.match`; an invalid pattern
raises `re.error` when compiled. -/
def matchMask (pattern : Option RePattern) (vs : List Value) : Except ApplyError (List Bool) :=
  match pattern with
  | none => .error .typeError
  | some p =>
    if p.valid then .ok (vs.map fun v => p.matchesFrom v.toText)
    else .error .patternCompile

/-- The invalid-row mask of `_apply_anomaly_flag`: the special arithmetic
branch for the reserved `rule_id`, otherwise the pattern branch, flipped
unless `flag_on_match`. -/
def anomalyMask (df : DataFrame) (col : String) (pattern : Option RePattern)
    (rule_id : Option String) (flag_on_match : Bool) :
    Except ApplyError (List Bool) :=
  if rule_id = some "flag_total_spent_mismatch" then do
    let ps ← getColE df "Price Per Unit"
    let qs ← getColE df "Quantity"
    let ts ← getColE df col
    let pns ← colNums ps
    let qns ← colNums qs
    let tns ← colNums ts
    .ok (zipWith3 arithInvalidRow pns qns tns)
  else do
    let vs ← getColE df col
    let mmask ← matchMask pattern vs
    .ok (if flag_on_match then mmask else mmask.map fun b => !b)

/-- `RuleApplier._apply_anomaly_flag`: creates `<col>_flag_<rule_id>` with
`True` on invalid rows and appends one log entry carrying `flagged_count`. -/
def applyAnomalyFlag (df : DataFrame) (col : String) (pattern : Option RePattern)
    (rule_id : Option String) (description reasoning : String) (flag_on_match : Bool) :
    Except ApplyError (DataFrame × LogEntry) := do
  let flagCol := col ++ "_flag_" ++ ruleIdText rule_id
  let mask ← anomalyMask df col pattern rule_id flag_on_match
  .ok (df.set flagCol (mask.map Value.bool),
       ⟨rule_id, "anomaly_flag", col, some (mask.count true), none, description, reasoning⟩)

/-- Product of two present cells under `df.loc[...] * df.loc[...]`:
numbers (and booleans) multiply, text raises `TypeError`. -/
def valueMul (v w : Value) : Except ApplyError Value := do
  let a ← v.asNum?
  let b ← w.asNum?
  match a, b with
  | some a, some b => .ok (.num (a * b))
  | _, _ => .ok .null

/-- The product-sentinel fill of `_apply_imputation`: rows with both
operands present and flagged missing receive `PricePerUnit * Quantity`,
all other rows keep their value. -/
def imputeProductCol : List Value → List Value → List Bool → List Value →
    Except ApplyError (List Value)
  | p :: ps, q :: qs, m :: ms, v :: vs => do
    let rest ← imputeProductCol ps qs ms vs
    if p.notna && q.notna && m then do
      let pr ← valueMul p q
      .ok (pr :: rest)
    else .ok (v :: rest)
  | _, _, _, _ => .ok []

/-- Insert into a sorted list of rationals. -/
def insertSorted (q : Rat) : List Rat → List Rat
  | [] => [q]
  | x :: xs => if q ≤ x then q :: x :: xs else x :: insertSorted q xs

/-- Insertion sort on rationals. -/
def sortRats : List Rat → List Rat
  | [] => []
  | x :: xs => insertSorted x (sortRats xs)

/-- Median of a list of numbers, `none` when the list is empty
(`Series.median()` skips missing values and yields `NaN` on an empty
series). -/
def ratMedian (l : List Rat) : Option Rat :=
  let s := sortRats l
  let n := s.length
  if n = 0 then none
  else if n % 2 = 1 then some (s.getD (n / 2) 0)
  else some ((s.getD (n / 2 - 1) 0 + s.getD (n / 2) 0) / 2)

/-- The numbers of one `groupby("Item")` group: the target column's
present numeric cells on the rows whose `Item` equals `key`. -/
def groupVals (items : List Value) (nums : List (Option Rat)) (key : Value) : List Rat :=
  (items.zip nums).filterMap fun p => if p.1 = key then p.2 else none

/-- The group-median fill
(`df.loc[mask, col] = df.loc[mask, "Item"].map(df.groupby("Item")[col].median())`):
each flagged row receives its group's median — missing when the row's
`Item` is missing or the group has no usable median — and every other row
keeps its value.  Group medians are computed on the column before the
assignment. -/
def groupImputeCol (items : List Value) (nums : List (Option Rat))
    (mask : List Bool) (vs : List Value) : List Value :=
  zipWith3
    (fun m it v =>
      if m then
        match it with
        | Value.null => Value.null
        | key => numOpt (ratMedian (groupVals items nums key))
      else v)
    mask items vs

/-- `df[col].fillna(df[col].median(), inplace=True)`: the global median is
computed first (raising `TypeError` on text cells), then every missing
cell of the column — related to the current rule or not — receives it;
when the column has no numbers `fillna(NaN)` changes nothing. -/
def fillnaGlobalMedian (vs : List Value) : Except ApplyError (List Value) := do
  let nums ← colNums vs
  match ratMedian (nums.filterMap id) with
  | some g => .ok (vs.map fun v => if v = Value.null then Value.num g else v)
  | none => .ok vs

/-- Literal fill: flagged rows receive the replacement text
(`df.loc[mask, col] = replacement`), a `None` replacement stores a
missing value. -/
def fillLiteral (mask : List Bool) (vs : List Value) (replacement : Option String) :
    List Value :=
  List.zipWith
    (fun m v =>
      if m then
        match replacement with
        | some r => Value.str r
        | none => Value.null
      else v)
    mask vs

/-- The new target column computed by `_apply_imputation`, selected by the
literal value of `replacement`. -/
def imputationCol (df : DataFrame) (mask : List Bool) (vs : List Value)
    (replacement : Option String) : Except ApplyError (List Value) :=
  if replacement = some "[Price Per Unit] * [Quantity]" then do
    let ps ← getColE df "Price Per Unit"
    let qs ← getColE df "Quantity"
    imputeProductCol ps qs mask vs
  else if replacement = some "<MEDIAN_FROM_GROUP_OR_GLOBAL>" then do
    let vs1 ←
      if df.hasCol "Item" then do
        let nums ← colNums vs
        pure (groupImputeCol (df.getD "Item") nums mask vs)
      else pure vs
    fillnaGlobalMedian vs1
  else
    .ok (fillLiteral mask vs replacement)

/-- `RuleApplier._apply_imputation`: detects missing rows by matching the
pattern against each cell's text, fills them per the replacement strategy,
and appends one log entry whose `imputed_count` is the number of rows
identified as missing (filled or not). -/
def applyImputation (df : DataFrame) (col : String) (pattern : Option RePattern)
    (replacement : Option String) (rule_id : Option String)
    (description reasoning : String) :
    Except ApplyError (DataFrame × LogEntry) := do
  let vs ← getColE df col
  let mask ← matchMask pattern vs
  let newCol ← imputationCol df mask vs replacement
  .ok (df.set col newCol,
       ⟨rule_id, "imputation", col, none, some (mask.count true), description, reasoning⟩)

/-- The numeric value of a decimal digit. -/
def charDigit? (c : Char) : Option Nat :=
  if '0' ≤ c ∧ c ≤ '9' then some (c.toNat - '0'.toNat) else none

/-- Value of a non-empty digit sequence. -/
def digitsValAux : Nat → List Char → Option Nat
  | acc, [] => some acc
  | acc, c :: cs =>
    match charDigit? c with
    | some d => digitsValAux (acc * 10 + d) cs
    | none => none

/-- Value of a digit sequence, `none` when empty or not all digits. -/
def digitsVal (l : List Char) : Option Nat :=
  if l.isEmpty then none else digitsValAux 0 l

/-- Recognizer for the numeric `%`-directives the source feeds to Python
`%`-formatting; the engine only ever receives the fixed-point family, so
the collaborator is modelled on exactly the texts of shape `"%.Nf"`, and
any other directive is modelled as a formatting failure. -/
def parsePercentFmt (fmt : String) : Option Nat :=
  match fmt.data with
  | '%' :: '.' :: rest =>
    match rest.getLast? with
    | some c => if c = 'f' then digitsVal rest.dropLast else none
    | none => none
  | _ => none

/-- Python `float(x)` on unsigned plain decimal texts. -/
def parseUnsigned? (l : List Char) : Option Rat :=
  let p := l.span fun c => (charDigit? c).isSome
  match p.2 with
  | [] => (digitsVal p.1).map fun n => (n : Rat)
  | '.' :: fp =>
    match digitsVal p.1, digitsVal fp with
    | some n, some m => some ((n : Rat) + (m : Rat) / (10 : Rat) ^ fp.length)
    | _, _ => none
  | _ => none

/-- Python `float(x)` on the plain decimal texts (`"12"`, `"-3.25"`, …);
any other text raises `ValueError` (whitespace stripping and the
exponent/infinity forms are not modelled). -/
def parseDecimal? (s : String) : Option Rat :=
  match s.data with
  | '-' :: rest => (parseUnsigned? rest).map fun q => -q
  | l => parseUnsigned? l

/-- `float(x)` on a cell: numbers pass through, booleans coerce, decimal
text parses, other text raises; a missing cell never reaches this point in
the `%`-branch (it sits behind a `pd.notna` guard) and `float(NaN)` is
`NaN`, modelled as 0 there. -/
def Value.toFloatE : Value → Except ApplyError Rat
  | .num q => .ok q
  | .bool b => .ok (if b then 1 else 0)
  | .str s =>
    match parseDecimal? s with
    | some q => .ok q
    | none => .error .typeError
  | .null => .ok 0

/-- One cell under the `%`-branch of `_apply_format_string`
(`lambda x: float(replacement % float(x)) if pd.notna(x) else x`). -/
def pctFormatValue (fmt : String) (v : Value) : Except ApplyError Value :=
  if v.notna then do
    let q ← v.toFloatE
    match parsePercentFmt fmt with
    | some places => .ok (.num (roundTo places q))
    | none => .error .typeError
  else .ok v

/-- The `%`-branch applied down a column; `Series.apply` raises on the
first failing cell, so the whole column formats or none of it does. -/
def pctFormatCol (fmt : String) : List Value → Except ApplyError (List Value)
  | [] => .ok []
  | v :: vs => do
    let w ← pctFormatValue fmt v
    let rest ← pctFormatCol fmt vs
    .ok (w :: rest)

/-- The new column computed inside the `try` block of
`_apply_format_string`: the `%`-branch when the replacement holds a
directive, else the regex branch when a pattern is supplied, else bare
`replacement % float(x)` — which raises `TypeError` on every cell because
the replacement holds no directive; a `None` replacement makes
`"%" in replacement` itself raise. -/
def formatColBody (vs : List Value) (pattern : Option RePattern)
    (replacement : Option String) : Except ApplyError (List Value) :=
  match replacement with
  | none => .error .typeError
  | some r =>
    if r.data.contains '%' then pctFormatCol r vs
    else
      match pattern with
      | some p =>
        if p.valid then .ok (vs.map fun v => .str (p.subAll r v.toText))
        else .error .patternCompile
      | none =>
        match vs with
        | [] => .ok []
        | _ => .error .typeError

/-- The body of the `try` block of `_apply_format_string`: fetch the
column, rewrite it, store it back. -/
def formatBody (df : DataFrame) (col : String) (pattern : Option RePattern)
    (replacement : Option String) : Except ApplyError DataFrame := do
  let vs ← getColE df col
  let vs' ← formatColBody vs pattern replacement
  .ok (df.set col vs')

/-- `RuleApplier._apply_format_string`: the whole body sits in a
`try/except` that downgrades any failure to a warning, so the handler
never raises and the log entry is appended either way. -/
def applyFormatString (df : DataFrame) (col : String) (pattern : Option RePattern)
    (replacement : Option String) (rule_id : Option String)
    (description reasoning : String) : DataFrame × LogEntry :=
  let df' :=
    match formatBody df col pattern replacement with
    | .ok d => d
    | .error _ => df
  (df', ⟨rule_id, "format_string", col, none, none, description, reasoning⟩)

/-- The column rewrite of `_apply_transformation`
(`df[col].astype(str).str.replace(pattern, replacement, regex=True)`):
every cell becomes the text obtained by global pattern substitution; a
missing or invalid pattern, or a missing replacement, raises. -/
def transformCol (vs : List Value) (pattern : Option RePattern)
    (replacement : Option String) : Except ApplyError (List Value) :=
  match pattern, replacement with
  | some p, some r =>
    if p.valid then .ok (vs.map fun v => .str (p.subAll r v.toText))
    else .error .patternCompile
  | _, _ => .error .typeError

/-- `RuleApplier._apply_transformation`: rewrite the column eagerly (an
invalid pattern escapes as a fatal error) and append one log entry. -/
def applyTransformation (df : DataFrame) (col : String) (pattern : Option RePattern)
    (replacement : Option String) (rule_id : Option String)
    (description reasoning : String) :
    Except ApplyError (DataFrame × LogEntry) := do
  let vs ← getColE df col
  let vs' ← transformCol vs pattern replacement
  .ok (df.set col vs',
       ⟨rule_id, "transformation", col, none, none, description, reasoning⟩)

/-- ASCII lowercasing, `str.lower()` of the collaborating runtime. -/
def strLower (s : String) : String :=
  ⟨s.data.map Char.toLower⟩

/-- `rule.get("rule_type", "transformation").lower()`. -/
def effectiveRuleType (r : RuleRecord) : String :=
  strLower (r.rule_type.getD "transformation")

/-- The per-(rule, column) step of `apply_rules`: skip with a warning when
the column is absent or the rule type unknown, otherwise dispatch to the
handler and append its log entry. -/
def applyRuleCol (df : DataFrame) (log : List LogEntry) (r : RuleRecord) (col : String) :
    Except ApplyError (DataFrame × List LogEntry) :=
  if df.hasCol col then
    let rt := effectiveRuleType r
    if rt = "anomaly_flag" then do
      let (df', e) ← applyAnomalyFlag df col r.pattern r.rule_id r.description r.reasoning r.flag_on_match
      .ok (df', log ++ [e])
    else if rt = "imputation" then do
      let (df', e) ← applyImputation df col r.pattern r.replacement r.rule_id r.description r.reasoning
      .ok (df', log ++ [e])
    else if rt = "format_string" then
      let (df', e) := applyFormatString df col r.pattern r.replacement r.rule_id r.description r.reasoning
      .ok (df', log ++ [e])
    else if rt = "transformation" then do
      let (df', e) ← applyTransformation df col r.pattern r.replacement r.rule_id r.description r.reasoning
      .ok (df', log ++ [e])
    else
      .ok (df, log)
  else
    .ok (df, log)

/-- One rule's pass over its target columns, in listed order. -/
def applyRuleCols (r : RuleRecord) :
    DataFrame → List LogEntry → List String → Except ApplyError (DataFrame × List LogEntry)
  | df, log, [] => .ok (df, log)
  | df, log, c :: cs => do
    let (df', log') ← applyRuleCol df log r c
    applyRuleCols r df' log' cs

/-- One rule of the main loop of `apply_rules`; a rule without target
columns is skipped with a warning (`if not cols: continue`). -/
def applyRule (df : DataFrame) (log : List LogEntry) (r : RuleRecord) :
    Except ApplyError (DataFrame × List LogEntry) :=
  if r.columns.isEmpty then .ok (df, log)
  else applyRuleCols r df log r.columns

/-- The main loop of `apply_rules` over the rule list, in order. -/
def applyRulesGo :
    DataFrame → List LogEntry → List RuleRecord → Except ApplyError (DataFrame × List LogEntry)
  | df, log, [] => .ok (df, log)
  | df, log, r :: rs => do
    let (df', log') ← applyRule df log r
    applyRulesGo df' log' rs

/-- `RuleApplier.apply_rules`: works on a deep copy of the caller's table
(the identity in this pure embedding) with an initially empty log. -/
def applyRules (df : DataFrame) (rules : List RuleRecord) :
    Except ApplyError (DataFrame × List LogEntry) :=
  applyRulesGo df [] rules

/-- The persisted rules document as seen by `_load_rules`: a top-level
`rules` field that may be absent; other top-level fields are ignored. -/
structure RulesPayload where
  rules : Option (List RuleRecord)

/-- A failure of `RuleApplier._load_rules`. -/
inductive LoadError where
  | fileNotFound
  | keyErrorRules
deriving DecidableEq, Repr

/-- `RuleApplier._load_rules`: `open` raises `FileNotFoundError` when the
path does not exist (modelled by a `none` file), `payload["rules"]` raises
`KeyError` when the parsed document lacks a `rules` field, and otherwise
the record list is returned exactly as parsed — no per-record validation
and no pattern compilation happen at load time. -/
def loadRulesFile : Option RulesPayload → Except LoadError (List RuleRecord)
  | none => .error .fileNotFound
  | some payload =>
    match payload.rules with
    | none => .error .keyErrorRules
    | some rs => .ok rs

/-- A rule record with every optional field absent and an empty column
list: the loader accepts it although it violates the spec's
required-field constraints. -/
def unvalidatedRecord : RuleRecord :=
  ⟨none, "", "", some "imputation", none, none, [], false⟩

/-- Two-column table for the arithmetic-check fixture. -/
def arithDF : DataFrame :=
  ⟨[("Price Per Unit", [Value.num (21/2), Value.num (21/2)]),
    ("Quantity", [Value.num 2, Value.num 2]),
    ("Total Spent", [Value.num 21, Value.num 25])]⟩

/-- A concrete compiled pattern matching exactly the text `nan`. -/
def nanPat : RePattern :=
  ⟨true, (fun s => s == "nan"), (fun r _ => r)⟩

/-- A concrete pattern that fails to compile. -/
def brokenPat : RePattern :=
  ⟨false, (fun _ => false), (fun _ s => s)⟩

/-- One-column fixture table. -/
def itemDF : DataFrame :=
  ⟨[("Item", [Value.str "a", Value.null])]⟩

/-- Fixture table for the product-sentinel imputation. -/
def productDF : DataFrame :=
  ⟨[("Total Spent", [Value.null, Value.str "21.0", Value.null]),
    ("Price Per Unit", [Value.num (15753/1000), Value.num 1, Value.null]),
    ("Quantity", [Value.num 3, Value.num 2, Value.num 4])]⟩

/-- Fixture table for the median-sentinel imputation: groups `A`, `B`, `C`
with integer values so every median is exact. -/
def medianDF : DataFrame :=
  ⟨[("Total Spent",
     [Value.num 1, Value.null, Value.num 5, Value.null, Value.null]),
    ("Item",
     [Value.str "A", Value.str "A", Value.str "B", Value.str "C", Value.str "C"])]⟩

/-- Fixture table for the format-string rule. -/
def priceDF : DataFrame :=
  ⟨[("Price Per Unit", [Value.num (15753/1000), Value.null])]⟩

/-- A transformation rule whose pattern does not compile. -/
def brokenRule : RuleRecord :=
  ⟨some "bad", "", "", some "transformation", some brokenPat, some "x", ["Item"], false⟩

/-- A transformation rule with its `rule_type` field absent. -/
def untypedRule : RuleRecord :=
  ⟨some "t1", "", "", none, some ⟨true, (fun _ => false), (fun r _ => r)⟩, some "y", ["Item"], false⟩

end RulesGen

namespace RulesGen

theorem ebind_ok (a : α) (f : α → Except ε β) :
    (Except.ok a >>= f : Except ε β) = f a := rfl

theorem epure_ok (a : α) : (pure a : Except ε α) = Except.ok a := rfl

theorem ebind_err (e : ε) (f : α → Except ε β) :
    (Except.error e >>= f : Except ε β) = .error e := rfl

theorem lookupCol_setColList_self (l : List (String × List Value)) (c : String)
    (v : List Value) : lookupCol (setColList l c v) c = some v := by
  induction l with
  | nil => simp [setColList, lookupCol]
  | cons hd tl ih =>
    obtain ⟨a, b⟩ := hd
    by_cases h : a = c
    · simp [setColList, h, lookupCol]
    · simp [setColList, h, lookupCol, ih]

theorem lookupCol_setColList_ne (l : List (String × List Value)) (c c' : String)
    (v : List Value) (h : c ≠ c') :
    lookupCol (setColList l c v) c' = lookupCol l c' := by
  induction l with
  | nil => simp [setColList, lookupCol, fun hc => h hc]
  | cons hd tl ih =>
    obtain ⟨a, b⟩ := hd
    by_cases hac : a = c
    · subst hac
      simp [setColList, lookupCol, h]
    · simp [setColList, hac, lookupCol, ih]

theorem get?_set_self (df : DataFrame) (c : String) (v : List Value) :
    (df.set c v).get? c = some v :=
  lookupCol_setColList_self df.cols c v

theorem get?_set_ne (df : DataFrame) (c c' : String) (v : List Value) (h : c ≠ c') :
    (df.set c v).get? c' = df.get? c' :=
  lookupCol_setColList_ne df.cols c c' v h

theorem hasCol_set_of_hasCol (df : DataFrame) (c c' : String) (v : List Value)
    (h : df.hasCol c' = true) : (df.set c v).hasCol c' = true := by
  by_cases hc : c = c'
  · subst hc
    simp [DataFrame.hasCol, get?_set_self]
  · simpa [DataFrame.hasCol, get?_set_ne df c c' v hc] using h

theorem flagColName_ne (col mid rid : String) (h : mid.length ≠ 0) :
    col ++ mid ++ rid ≠ col := by
  intro hc
  have hl := congrArg String.length hc
  simp [String.length_append] at hl
  omega

theorem colNums_map_numOpt (nos : List (Option Rat)) :
    colNums (nos.map numOpt) = .ok nos := by
  induction nos with
  | nil => rfl
  | cons a l ih =>
    cases a <;> simp [colNums, numOpt, Value.asNum?, ih, ebind_ok]

theorem zipWith3_map_args (f : α → β → γ → δ) (g₁ : α' → α) (g₂ : β' → β) (g₃ : γ' → γ)
    (as : List α') (bs : List β') (cs : List γ') :
    zipWith3 f (as.map g₁) (bs.map g₂) (cs.map g₃) =
      zipWith3 (fun a b c => f (g₁ a) (g₂ b) (g₃ c)) as bs cs := by
  induction as generalizing bs cs with
  | nil => simp [zipWith3]
  | cons a as ih => cases bs <;> cases cs <;> simp [zipWith3, ih]

/-- C8: `apply_rules` never mutates the caller's table — it works on a
deep copy, which the pure embedding renders as plain value passing — and
with an empty rule list it returns that copy unchanged together with an
empty log. -/
theorem applyRules_empty_rules (df : DataFrame) :
    applyRules df [] = .ok (df, []) := rfl

/-- C9 counterexample: a persisted rule set whose single record lacks
`rule_id` and `columns` loads successfully — `_load_rules` performs no
per-record validation, so the claimed `MalformedRuleSetError` is never
raised for it. -/
theorem loadRules_accepts_invalid_record :
    loadRulesFile (some ⟨some [unvalidatedRecord]⟩) = .ok [unvalidatedRecord] ∧
      ∀ e, loadRulesFile (some ⟨some [unvalidatedRecord]⟩) ≠ .error e := by
  exact ⟨rfl, fun e h => by cases h⟩

/-- C9 amended: loading fails when the source is absent or the document
lacks a `rules` collection, and otherwise returns the record list exactly
as parsed — structural checks only at the top level, no per-record
validation and no pattern compilation at load time. -/
theorem loadRules_structural_only :
    loadRulesFile none = .error LoadError.fileNotFound ∧
      (∀ rs : List RuleRecord, loadRulesFile (some ⟨some rs⟩) = .ok rs) ∧
      loadRulesFile (some ⟨none⟩) = .error LoadError.keyErrorRules :=
  ⟨rfl, fun _ => rfl, rfl⟩

/-- C10: a record with no `rule_type` field is dispatched as a
transformation (its target column is rewritten and a transformation log
entry appended), and dispatch lowercases the supplied value, so
`ANOMALY_FLAG` reaches the anomaly-flag handler exactly as `anomaly_flag`
does. -/
theorem ruleType_default_and_lowercase (df : DataFrame) (log : List LogEntry)
    (r : RuleRecord) (c : String) (p : RePattern) (rep : String) (vs : List Value)
    (hnone : r.rule_type = none)
    (hpat : r.pattern = some p) (hpv : p.valid = true)
    (hrep : r.replacement = some rep)
    (hcol : df.get? c = some vs) :
    applyRuleCol df log r c =
      .ok (df.set c (vs.map fun v => Value.str (p.subAll rep v.toText)),
           log ++ [⟨r.rule_id, "transformation", c, none, none, r.description, r.reasoning⟩]) ∧
    (∀ (df₂ : DataFrame) (log₂ : List LogEntry) (r₂ : RuleRecord) (c₂ : String),
      applyRuleCol df₂ log₂ { r₂ with rule_type := some "ANOMALY_FLAG" } c₂ =
        applyRuleCol df₂ log₂ { r₂ with rule_type := some "anomaly_flag" } c₂) ∧
    effectiveRuleType { r with rule_type := some "ANOMALY_FLAG" } = "anomaly_flag" := by
  have hup : ∀ r₂ : RuleRecord,
      effectiveRuleType { r₂ with rule_type := some "ANOMALY_FLAG" } = "anomaly_flag" := by
    intro r₂
    show strLower "ANOMALY_FLAG" = "anomaly_flag"
    decide
  have hlo : ∀ r₂ : RuleRecord,
      effectiveRuleType { r₂ with rule_type := some "anomaly_flag" } = "anomaly_flag" := by
    intro r₂
    show strLower "anomaly_flag" = "anomaly_flag"
    decide
  refine ⟨?_, ?_, hup r⟩
  · have hrt : effectiveRuleType r = "transformation" := by
      rw [effectiveRuleType, hnone]
      decide
    have hhas : df.hasCol c = true := by
      simp [DataFrame.hasCol, hcol]
    rw [applyRuleCol]
    simp only [hhas, if_true, hrt]
    rw [applyTransformation, getColE, hcol, ebind_ok, hpat, hrep]
    simp [transformCol, hpv, ebind_ok]
  · intro df₂ log₂ r₂ c₂
    rw [applyRuleCol, applyRuleCol, hup r₂, hlo r₂]

/-- C10 witness: a rule with no `rule_type` field rewrites its target
column as a transformation would. -/
theorem ruleType_default_and_lowercase_witness :
    applyRuleCol itemDF [] untypedRule "Item" =
      .ok (itemDF.set "Item" [Value.str "y", Value.str "y"],
           [⟨some "t1", "transformation", "Item", none, none, "", ""⟩]) := by
  have h := ruleType_default_and_lowercase itemDF [] untypedRule "Item"
    ⟨true, (fun _ => false), (fun r _ => r)⟩ "y" [Value.str "a", Value.null]
    rfl rfl rfl rfl (by decide)
  exact h.1

theorem colNums_map_num (ps : List Rat) :
    colNums (ps.map Value.num) = .ok (ps.map some) := by
  have h := colNums_map_numOpt (ps.map some)
  simpa [List.map_map, Function.comp, numOpt] using h

/-- C1: a non-sentinel anomaly-flag rule adds the boolean column
`<col>_flag_<rule_id>` holding, row-wise, the anchored match of the cell's
text when `flag_on_match` is set and its negation otherwise; the original
column is untouched and the log entry counts the flagged rows. -/
theorem anomalyFlag_general_spec (df : DataFrame) (col : String) (p : RePattern)
    (rid : Option String) (d rn : String) (fom : Bool) (vs : List Value)
    (hrid : rid ≠ some "flag_total_spent_mismatch")
    (hp : p.valid = true)
    (hcol : df.get? col = some vs) :
    let mmask := vs.map fun v => p.matchesFrom v.toText
    let mask := if fom then mmask else mmask.map fun b => !b
    applyAnomalyFlag df col (some p) rid d rn fom =
      .ok (df.set (col ++ "_flag_" ++ ruleIdText rid) (mask.map Value.bool),
           ⟨rid, "anomaly_flag", col, some (mask.count true), none, d, rn⟩) ∧
    (df.set (col ++ "_flag_" ++ ruleIdText rid) (mask.map Value.bool)).get? col = some vs := by
  intro mmask mask
  have hne : col ++ "_flag_" ++ ruleIdText rid ≠ col :=
    flagColName_ne col "_flag_" (ruleIdText rid) (by decide)
  constructor
  · rw [applyAnomalyFlag, anomalyMask]
    simp [hrid, getColE, hcol, matchMask, hp, ebind_ok, mask, mmask]
  · rw [get?_set_ne df _ col _ hne]
    exact hcol

/-- C1 witness: concrete run on a one-column table. -/
theorem anomalyFlag_general_spec_witness :
    applyAnomalyFlag itemDF "Item" (some nanPat) (some "r1") "" "" true =
      .ok (itemDF.set "Item_flag_r1" [Value.bool false, Value.bool true],
           ⟨some "r1", "anomaly_flag", "Item", some 1, none, "", ""⟩) ∧
    (itemDF.set "Item_flag_r1" [Value.bool false, Value.bool true]).get? "Item" =
      some [Value.str "a", Value.null] := by
  have h := anomalyFlag_general_spec itemDF "Item" nanPat (some "r1") "" "" true
    [Value.str "a", Value.null] (by decide) (by decide) (by decide)
  exact h

/-- C2: the reserved `flag_total_spent_mismatch` anomaly rule flags, on a
table whose operand columns are numeric, exactly the rows where
`abs(round(PricePerUnit * Quantity, 2) - TotalSpent)` exceeds one cent. -/
theorem anomalyFlag_arith_spec (df : DataFrame) (col : String) (pat : Option RePattern)
    (d rn : String) (fom : Bool) (ps qs ts : List Rat)
    (hps : df.get? "Price Per Unit" = some (ps.map Value.num))
    (hqs : df.get? "Quantity" = some (qs.map Value.num))
    (hts : df.get? col = some (ts.map Value.num)) :
    let mask := zipWith3 (fun p q t => decide ((1 : Rat)/100 < |t - roundTo 2 (p * q)|)) ps qs ts
    applyAnomalyFlag df col pat (some "flag_total_spent_mismatch") d rn fom =
      .ok (df.set (col ++ "_flag_" ++ "flag_total_spent_mismatch") (mask.map Value.bool),
           ⟨some "flag_total_spent_mismatch", "anomaly_flag", col,
            some (mask.count true), none, d, rn⟩) := by
  intro mask
  rw [applyAnomalyFlag, anomalyMask]
  simp only [if_pos rfl, getColE, hps, hqs, hts, ebind_ok, colNums_map_num]
  rw [zipWith3_map_args]
  rfl

/-- C2 witness: `PricePerUnit=10.5, Quantity=2` with `TotalSpent=21.0`
is not flagged and with `TotalSpent=25.0` is flagged. -/
theorem anomalyFlag_arith_spec_witness :
    applyAnomalyFlag arithDF "Total Spent" none (some "flag_total_spent_mismatch") "" "" false =
      .ok (arithDF.set "Total Spent_flag_flag_total_spent_mismatch"
             [Value.bool false, Value.bool true],
           ⟨some "flag_total_spent_mismatch", "anomaly_flag", "Total Spent",
            some 1, none, "", ""⟩) := by
  have h := anomalyFlag_arith_spec arithDF "Total Spent" none "" "" false
    [21/2, 21/2] [2, 2] [21, 25] rfl rfl rfl
  rw [h]
  have hround : roundTo 2 (21/2 * 2) = (21 : Rat) := by
    simp only [roundTo, roundHalfEven]
    norm_num
  have hs : ("Total Spent" ++ "_flag_" ++ "flag_total_spent_mismatch" : String) =
      "Total Spent_flag_flag_total_spent_mismatch" := by decide
  simp only [zipWith3, hround, hs]
  norm_num

theorem imputeProductCol_numOpt (pos qos : List (Option Rat)) (mask : List Bool)
    (vs : List Value) :
    imputeProductCol (pos.map numOpt) (qos.map numOpt) mask vs =
      .ok (zipWith4
        (fun po qo m v =>
          match po, qo with
          | some a, some b => if m then Value.num (a * b) else v
          | _, _ => v)
        pos qos mask vs) := by
  induction pos generalizing qos mask vs with
  | nil => cases qos <;> cases mask <;> cases vs <;> rfl
  | cons po pos ih =>
    cases qos with
    | nil => cases mask <;> cases vs <;> rfl
    | cons qo qos =>
      cases mask with
      | nil => cases vs <;> rfl
      | cons m mask =>
        cases vs with
        | nil => rfl
        | cons v vs =>
          cases po <;> cases qo <;> cases m <;>
            simp [imputeProductCol, zipWith4, ih, numOpt, Value.notna, valueMul,
                  Value.asNum?, ebind_ok]

/-- C3: the product-sentinel imputation fills exactly the rows that match
the missing-value pattern and have both operands present, storing
`PricePerUnit * Quantity`; pattern-matched rows with an absent operand are
left as they were, yet `imputed_count` counts every pattern-matched row. -/
theorem imputation_product_spec (df : DataFrame) (col : String) (p : RePattern)
    (rid : Option String) (d rn : String) (vs : List Value) (pos qos : List (Option Rat))
    (hp : p.valid = true)
    (hcol : df.get? col = some vs)
    (hps : df.get? "Price Per Unit" = some (pos.map numOpt))
    (hqs : df.get? "Quantity" = some (qos.map numOpt)) :
    let mask := vs.map fun v => p.matchesFrom v.toText
    applyImputation df col (some p) (some "[Price Per Unit] * [Quantity]") rid d rn =
      .ok (df.set col
             (zipWith4
               (fun po qo m v =>
                 match po, qo with
                 | some a, some b => if m then Value.num (a * b) else v
                 | _, _ => v)
               pos qos mask vs),
           ⟨rid, "imputation", col, none, some (mask.count true), d, rn⟩) := by
  intro mask
  rw [applyImputation, getColE]
  simp only [hcol, ebind_ok]
  rw [matchMask]
  simp only [hp, if_true, ebind_ok]
  rw [imputationCol]
  simp only [if_pos rfl]
  rw [getColE]
  simp only [hps, ebind_ok]
  rw [getColE]
  simp only [hqs, ebind_ok, imputeProductCol_numOpt]
  rfl

/-- C3 witness: `PricePerUnit=15.753, Quantity=3` fills a missing
`TotalSpent` with `47.259`; the third row matches the pattern but has no
`PricePerUnit`, stays unfilled, and is still counted. -/
theorem imputation_product_spec_witness :
    applyImputation productDF "Total Spent" (some nanPat)
        (some "[Price Per Unit] * [Quantity]") (some "imp") "" "" =
      .ok (productDF.set "Total Spent"
             [Value.num (47259/1000), Value.str "21.0", Value.null],
           ⟨some "imp", "imputation", "Total Spent", none, some 2, "", ""⟩) := by
  have h := imputation_product_spec productDF "Total Spent" nanPat (some "imp") "" ""
    [Value.null, Value.str "21.0", Value.null]
    [some (15753/1000), some 1, none] [some 3, some 2, some 4]
    rfl rfl rfl rfl
  rw [h]
  have hm : (15753/1000 : Rat) * 3 = 47259/1000 := by norm_num
  simp [zipWith4, nanPat, Value.toText, hm]

theorem pctFormatCol_numOpt (fmt : String) (places : Nat) (nos : List (Option Rat))
    (hfmt : parsePercentFmt fmt = some places) :
    pctFormatCol fmt (nos.map numOpt) =
      .ok (nos.map fun no => numOpt (no.map (roundTo places))) := by
  induction nos with
  | nil => rfl
  | cons no nos ih =>
    cases no <;>
      simp [pctFormatCol, pctFormatValue, numOpt, Value.notna, Value.toFloatE,
            hfmt, ih, ebind_ok]

/-- C7: a format-string rule whose replacement holds a `%`-directive
rewrites each present cell to the numerically-stored rounded value — the
result is a number, not frozen text — and leaves missing cells untouched. -/
theorem formatString_percent_spec (df : DataFrame) (col : String) (pat : Option RePattern)
    (rid : Option String) (d rn : String) (fmt : String) (places : Nat)
    (nos : List (Option Rat))
    (hcol : df.get? col = some (nos.map numOpt))
    (hpct : fmt.data.contains '%' = true)
    (hfmt : parsePercentFmt fmt = some places) :
    applyFormatString df col pat (some fmt) rid d rn =
      (df.set col (nos.map fun no => numOpt (no.map (roundTo places))),
       ⟨rid, "format_string", col, none, none, d, rn⟩) := by
  rw [applyFormatString, formatBody, getColE]
  simp only [hcol, ebind_ok]
  simp only [formatColBody, hpct, if_true, pctFormatCol_numOpt fmt places nos hfmt,
             ebind_ok]

/-- C7 witness: `%.2f` on `15.753` stores the number `15.75`; the missing
cell stays missing. -/
theorem formatString_percent_spec_witness :
    applyFormatString priceDF "Price Per Unit" none (some "%.2f") (some "fmt1") "" "" =
      (priceDF.set "Price Per Unit" [Value.num (1575/100), Value.null],
       ⟨some "fmt1", "format_string", "Price Per Unit", none, none, "", ""⟩) := by
  have h := formatString_percent_spec priceDF "Price Per Unit" none (some "fmt1") "" ""
    "%.2f" 2 [some (15753/1000), none] rfl (by decide) (by decide)
  rw [h]
  have hr : roundTo 2 (15753/1000) = (1575/100 : Rat) := by
    simp only [roundTo, roundHalfEven]
    norm_num
  simp [numOpt, hr]

/-- C6: a (rule, column) pair whose column is absent from the table, or
whose rule type is not one of the four known variants, is skipped — the
table, the log and control flow are untouched (no exception) — and every
dispatched pair that returns normally appends exactly one log entry. -/
theorem applyRuleCol_log_discipline (df : DataFrame) (log : List LogEntry)
    (r : RuleRecord) (c : String) :
    (df.hasCol c = false → applyRuleCol df log r c = .ok (df, log)) ∧
    (effectiveRuleType r ∉
        (["anomaly_flag", "imputation", "format_string", "transformation"] : List String) →
      applyRuleCol df log r c = .ok (df, log)) ∧
    (df.hasCol c = true →
      effectiveRuleType r ∈
        (["anomaly_flag", "imputation", "format_string", "transformation"] : List String) →
      ∀ df' log', applyRuleCol df log r c = .ok (df', log') →
        ∃ e, log' = log ++ [e]) := by
  refine ⟨?_, ?_, ?_⟩
  · intro h
    rw [applyRuleCol]
    simp [h]
  · intro h
    simp only [List.mem_cons, List.not_mem_nil, or_false, not_or] at h
    obtain ⟨h1, h2, h3, h4⟩ := h
    rw [applyRuleCol]
    simp [h1, h2, h3, h4]
  · intro hhas hmem df' log' hok
    rw [applyRuleCol] at hok
    simp only [hhas, if_true] at hok
    simp only [List.mem_cons, List.not_mem_nil, or_false] at hmem
    rcases hmem with h | h | h | h
    · simp only [h] at hok
      cases ha : applyAnomalyFlag df c r.pattern r.rule_id r.description r.reasoning
          r.flag_on_match with
      | error e =>
        rw [ha] at hok
        simp [ebind_ok, ebind_err] at hok
      | ok pr =>
        obtain ⟨df₀, e₀⟩ := pr
        rw [ha] at hok
        simp [ebind_ok, ebind_err] at hok
        exact ⟨e₀, hok.2.symm⟩
    · simp only [h] at hok
      cases ha : applyImputation df c r.pattern r.replacement r.rule_id r.description
          r.reasoning with
      | error e =>
        rw [ha] at hok
        simp [ebind_ok, ebind_err] at hok
      | ok pr =>
        obtain ⟨df₀, e₀⟩ := pr
        rw [ha] at hok
        simp [ebind_ok, ebind_err] at hok
        exact ⟨e₀, hok.2.symm⟩
    · simp only [h] at hok
      rcases hfs : applyFormatString df c r.pattern r.replacement r.rule_id r.description
          r.reasoning with ⟨df₀, e₀⟩
      rw [hfs] at hok
      simp [ebind_ok, ebind_err] at hok
      exact ⟨e₀, hok.2.symm⟩
    · simp only [h] at hok
      cases ha : applyTransformation df c r.pattern r.replacement r.rule_id r.description
          r.reasoning with
      | error e =>
        rw [ha] at hok
        simp [ebind_ok, ebind_err] at hok
      | ok pr =>
        obtain ⟨df₀, e₀⟩ := pr
        rw [ha] at hok
        simp [ebind_ok, ebind_err] at hok
        exact ⟨e₀, hok.2.symm⟩

/-- C6 witness: a column absent from the table is skipped without a log
entry or an error. -/
theorem applyRuleCol_log_discipline_witness :
    applyRuleCol itemDF [] brokenRule "Location" = .ok (itemDF, []) :=
  (applyRuleCol_log_discipline itemDF [] brokenRule "Location").1 (by decide)

theorem applyAnomalyFlag_ok_set (df df' : DataFrame) (col : String)
    (pat : Option RePattern) (rid : Option String) (d rn : String) (fom : Bool)
    (e : LogEntry)
    (h : applyAnomalyFlag df col pat rid d rn fom = .ok (df', e)) :
    ∃ c' v, df' = df.set c' v := by
  simp only [applyAnomalyFlag] at h
  cases hm : anomalyMask df col pat rid fom with
  | error e' =>
    rw [hm, ebind_err] at h
    exact Except.noConfusion h
  | ok m =>
    rw [hm, ebind_ok] at h
    simp only [Except.ok.injEq, Prod.mk.injEq] at h
    exact ⟨_, _, h.1.symm⟩

theorem applyImputation_ok_set (df df' : DataFrame) (col : String)
    (pat : Option RePattern) (rep : Option String) (rid : Option String)
    (d rn : String) (e : LogEntry)
    (h : applyImputation df col pat rep rid d rn = .ok (df', e)) :
    ∃ v, df' = df.set col v := by
  rw [applyImputation] at h
  cases h1 : getColE df col with
  | error e1 => rw [h1, ebind_err] at h; exact Except.noConfusion h
  | ok vs =>
    rw [h1, ebind_ok] at h
    cases h2 : matchMask pat vs with
    | error e2 => rw [h2, ebind_err] at h; exact Except.noConfusion h
    | ok mask =>
      rw [h2, ebind_ok] at h
      cases h3 : imputationCol df mask vs rep with
      | error e3 => rw [h3, ebind_err] at h; exact Except.noConfusion h
      | ok nc =>
        rw [h3, ebind_ok] at h
        simp only [Except.ok.injEq, Prod.mk.injEq] at h
        exact ⟨nc, h.1.symm⟩

theorem formatBody_ok_set (df d2 : DataFrame) (col : String) (pat : Option RePattern)
    (rep : Option String) (h : formatBody df col pat rep = .ok d2) :
    ∃ v, d2 = df.set col v := by
  rw [formatBody] at h
  cases h1 : getColE df col with
  | error e1 => rw [h1, ebind_err] at h; exact Except.noConfusion h
  | ok vs =>
    rw [h1, ebind_ok] at h
    cases h2 : formatColBody vs pat rep with
    | error e2 => rw [h2, ebind_err] at h; exact Except.noConfusion h
    | ok vs' =>
      rw [h2, ebind_ok] at h
      simp only [Except.ok.injEq] at h
      exact ⟨vs', h.symm⟩

theorem applyFormatString_fst_set (df : DataFrame) (col : String)
    (pat : Option RePattern) (rep : Option String) (rid : Option String)
    (d rn : String) :
    (applyFormatString df col pat rep rid d rn).1 = df ∨
      ∃ v, (applyFormatString df col pat rep rid d rn).1 = df.set col v := by
  rw [applyFormatString]
  cases hb : formatBody df col pat rep with
  | error e => exact Or.inl rfl
  | ok d2 => exact Or.inr (formatBody_ok_set df d2 col pat rep hb)

theorem applyTransformation_ok_set (df df' : DataFrame) (col : String)
    (pat : Option RePattern) (rep : Option String) (rid : Option String)
    (d rn : String) (e : LogEntry)
    (h : applyTransformation df col pat rep rid d rn = .ok (df', e)) :
    ∃ v, df' = df.set col v := by
  rw [applyTransformation] at h
  cases h1 : getColE df col with
  | error e1 => rw [h1, ebind_err] at h; exact Except.noConfusion h
  | ok vs =>
    rw [h1, ebind_ok] at h
    cases h2 : transformCol vs pat rep with
    | error e2 => rw [h2, ebind_err] at h; exact Except.noConfusion h
    | ok vs' =>
      rw [h2, ebind_ok] at h
      simp only [Except.ok.injEq, Prod.mk.injEq] at h
      exact ⟨vs', h.1.symm⟩

theorem applyRuleCol_ok_hasCol (df df' : DataFrame) (log log' : List LogEntry)
    (r : RuleRecord) (c x : String)
    (h : applyRuleCol df log r c = .ok (df', log'))
    (hx : df.hasCol x = true) : df'.hasCol x = true := by
  rw [applyRuleCol] at h
  by_cases hc : df.hasCol c
  case neg =>
    simp only [hc, if_false, Bool.false_eq_true, Except.ok.injEq, Prod.mk.injEq] at h
    rw [← h.1]
    exact hx
  case pos =>
    simp only [hc, if_true] at h
    by_cases h1 : effectiveRuleType r = "anomaly_flag"
    · rw [if_pos h1] at h
      cases ha : applyAnomalyFlag df c r.pattern r.rule_id r.description r.reasoning
          r.flag_on_match with
      | error e => rw [ha, ebind_err] at h; exact Except.noConfusion h
      | ok pr =>
        obtain ⟨df₀, e₀⟩ := pr
        rw [ha, ebind_ok] at h
        simp only [Except.ok.injEq, Prod.mk.injEq] at h
        obtain ⟨c', v, hset⟩ := applyAnomalyFlag_ok_set df df₀ c r.pattern r.rule_id
          r.description r.reasoning r.flag_on_match e₀ ha
        rw [← h.1, hset]
        exact hasCol_set_of_hasCol df c' x v hx
    · rw [if_neg h1] at h
      by_cases h2 : effectiveRuleType r = "imputation"
      · rw [if_pos h2] at h
        cases ha : applyImputation df c r.pattern r.replacement r.rule_id r.description
            r.reasoning with
        | error e => rw [ha, ebind_err] at h; exact Except.noConfusion h
        | ok pr =>
          obtain ⟨df₀, e₀⟩ := pr
          rw [ha, ebind_ok] at h
          simp only [Except.ok.injEq, Prod.mk.injEq] at h
          obtain ⟨v, hset⟩ := applyImputation_ok_set df df₀ c r.pattern r.replacement
            r.rule_id r.description r.reasoning e₀ ha
          rw [← h.1, hset]
          exact hasCol_set_of_hasCol df c x v hx
      · rw [if_neg h2] at h
        by_cases h3 : effectiveRuleType r = "format_string"
        · rw [if_pos h3] at h
          simp only [Except.ok.injEq, Prod.mk.injEq] at h
          rcases applyFormatString_fst_set df c r.pattern r.replacement r.rule_id
              r.description r.reasoning with hid | ⟨v, hset⟩
          · rw [← h.1, hid]; exact hx
          · rw [← h.1, hset]; exact hasCol_set_of_hasCol df c x v hx
        · rw [if_neg h3] at h
          by_cases h4 : effectiveRuleType r = "transformation"
          · rw [if_pos h4] at h
            cases ha : applyTransformation df c r.pattern r.replacement r.rule_id
                r.description r.reasoning with
            | error e => rw [ha, ebind_err] at h; exact Except.noConfusion h
            | ok pr =>
              obtain ⟨df₀, e₀⟩ := pr
              rw [ha, ebind_ok] at h
              simp only [Except.ok.injEq, Prod.mk.injEq] at h
              obtain ⟨v, hset⟩ := applyTransformation_ok_set df df₀ c r.pattern
                r.replacement r.rule_id r.description r.reasoning e₀ ha
              rw [← h.1, hset]
              exact hasCol_set_of_hasCol df c x v hx
          · rw [if_neg h4] at h
            simp only [Except.ok.injEq, Prod.mk.injEq] at h
            rw [← h.1]
            exact hx

theorem applyRuleCols_ok_hasCol (r : RuleRecord) (cs : List String) :
    ∀ (df df' : DataFrame) (log log' : List LogEntry),
      applyRuleCols r df log cs = .ok (df', log') →
      ∀ x, df.hasCol x = true → df'.hasCol x = true := by
  induction cs with
  | nil =>
    intro df df' log log' h x hx
    rw [applyRuleCols] at h
    simp only [Except.ok.injEq, Prod.mk.injEq] at h
    rw [← h.1]
    exact hx
  | cons c cs ih =>
    intro df df' log log' h x hx
    rw [applyRuleCols] at h
    cases h1 : applyRuleCol df log r c with
    | error e => rw [h1, ebind_err] at h; exact Except.noConfusion h
    | ok pr =>
      obtain ⟨df₁, log₁⟩ := pr
      rw [h1, ebind_ok] at h
      exact ih df₁ df' log₁ log' h x
        (applyRuleCol_ok_hasCol df df₁ log log₁ r c x h1 hx)

theorem applyRule_ok_hasCol (df df' : DataFrame) (log log' : List LogEntry)
    (r : RuleRecord)
    (h : applyRule df log r = .ok (df', log'))
    (x : String) (hx : df.hasCol x = true) : df'.hasCol x = true := by
  rw [applyRule] at h
  by_cases he : r.columns.isEmpty
  · simp only [he, if_true, Except.ok.injEq, Prod.mk.injEq] at h
    rw [← h.1]
    exact hx
  · simp only [he, if_false, Bool.false_eq_true] at h
    exact applyRuleCols_ok_hasCol r r.columns df df' log log' h x hx

theorem transformCol_invalid (vs : List Value) (p : RePattern) (rep : Option String)
    (hpv : p.valid = false) : ∃ e, transformCol vs (some p) rep = .error e := by
  cases rep with
  | none => exact ⟨.typeError, rfl⟩
  | some r => exact ⟨.patternCompile, by simp [transformCol, hpv]⟩

theorem applyTransformation_invalid (df : DataFrame) (col : String) (p : RePattern)
    (rep : Option String) (rid : Option String) (d rn : String)
    (hpv : p.valid = false) (hcol : df.hasCol col = true) :
    ∃ e, applyTransformation df col (some p) rep rid d rn = .error e := by
  obtain ⟨vs, hvs⟩ : ∃ vs, df.get? col = some vs := by
    rcases hg : df.get? col with _ | vs
    · rw [DataFrame.hasCol, hg] at hcol
      simp at hcol
    · exact ⟨vs, rfl⟩
  obtain ⟨e, he⟩ := transformCol_invalid vs p rep hpv
  refine ⟨e, ?_⟩
  rw [applyTransformation, getColE]
  simp only [hvs, ebind_ok]
  rw [he, ebind_err]

theorem applyRuleCol_invalid_transformation (df : DataFrame) (log : List LogEntry)
    (r : RuleRecord) (c : String) (p : RePattern)
    (ht : effectiveRuleType r = "transformation")
    (hpat : r.pattern = some p) (hpv : p.valid = false)
    (hcol : df.hasCol c = true) :
    ∃ e, applyRuleCol df log r c = .error e := by
  obtain ⟨e, he⟩ := applyTransformation_invalid df c p r.replacement r.rule_id
    r.description r.reasoning hpv hcol
  refine ⟨e, ?_⟩
  rw [applyRuleCol]
  simp only [hcol, if_true, ht]
  rw [hpat, he]
  rfl

theorem applyRuleCols_invalid_kill (r : RuleRecord) (p : RePattern) (c : String)
    (ht : effectiveRuleType r = "transformation")
    (hpat : r.pattern = some p) (hpv : p.valid = false) (cs : List String) :
    ∀ (df : DataFrame) (log : List LogEntry), c ∈ cs → df.hasCol c = true →
      ∃ e, applyRuleCols r df log cs = .error e := by
  induction cs with
  | nil =>
    intro df log hc
    exact absurd hc (List.not_mem_nil c)
  | cons c₀ cs ih =>
    intro df log hc hcol
    rw [applyRuleCols]
    cases h1 : applyRuleCol df log r c₀ with
    | error e => exact ⟨e, rfl⟩
    | ok pr =>
      obtain ⟨df₁, log₁⟩ := pr
      rcases List.mem_cons.mp hc with rfl | hmem
      · obtain ⟨e, he⟩ := applyRuleCol_invalid_transformation df log r c p ht hpat hpv hcol
        rw [h1] at he
        exact Except.noConfusion he
      · have hcol₁ : df₁.hasCol c = true :=
          applyRuleCol_ok_hasCol df df₁ log log₁ r c₀ c h1 hcol
        obtain ⟨e, he⟩ := ih df₁ log₁ hmem hcol₁
        refine ⟨e, ?_⟩
        rw [ebind_ok]
        exact he

theorem applyRulesGo_invalid_kill (r : RuleRecord) (p : RePattern) (c : String)
    (ht : effectiveRuleType r = "transformation")
    (hpat : r.pattern = some p) (hpv : p.valid = false)
    (hc : c ∈ r.columns) (rules : List RuleRecord) :
    ∀ (df : DataFrame) (log : List LogEntry), r ∈ rules → df.hasCol c = true →
      ∃ e, applyRulesGo df log rules = .error e := by
  induction rules with
  | nil =>
    intro df log hr
    exact absurd hr (List.not_mem_nil r)
  | cons r₀ rs ih =>
    intro df log hr hcol
    rw [applyRulesGo]
    cases h1 : applyRule df log r₀ with
    | error e => exact ⟨e, rfl⟩
    | ok pr =>
      obtain ⟨df₁, log₁⟩ := pr
      rcases List.mem_cons.mp hr with rfl | hmem
      · have hne : r.columns.isEmpty = false := by
          cases hcols : r.columns with
          | nil => rw [hcols] at hc; exact absurd hc (List.not_mem_nil c)
          | cons a l => rfl
        obtain ⟨e, he⟩ := applyRuleCols_invalid_kill r p c ht hpat hpv r.columns df log hc hcol
        rw [applyRule, hne] at h1
        simp only [Bool.false_eq_true, if_false] at h1
        rw [h1] at he
        exact Except.noConfusion he
      · have hcol₁ : df₁.hasCol c = true :=
          applyRule_ok_hasCol df df₁ log log₁ r₀ h1 c hcol
        obtain ⟨e, he⟩ := ih df₁ log₁ hmem hcol₁
        refine ⟨e, ?_⟩
        rw [ebind_ok]
        exact he

/-- C5: a transformation rule whose pattern fails to compile, aimed at a
column the table has, makes the whole `apply_rules` call abort with an
error — no cleaned table is returned as a success result. -/
theorem invalid_transformation_aborts (df : DataFrame) (rules : List RuleRecord)
    (r : RuleRecord) (p : RePattern) (c : String)
    (hr : r ∈ rules)
    (ht : effectiveRuleType r = "transformation")
    (hpat : r.pattern = some p) (hpv : p.valid = false)
    (hc : c ∈ r.columns) (hcol : df.hasCol c = true) :
    ∃ e, applyRules df rules = .error e := by
  rw [applyRules]
  exact applyRulesGo_invalid_kill r p c ht hpat hpv hc rules df [] hr hcol

/-- C5 witness: one invalid-pattern transformation rule on an existing
column aborts the call. -/
theorem invalid_transformation_aborts_witness :
    ∃ e, applyRules itemDF [brokenRule] = .error e :=
  invalid_transformation_aborts itemDF [brokenRule] brokenRule brokenPat "Item"
    (by simp) (by decide) rfl rfl (by simp [brokenRule]) (by decide)

theorem map_ext_on (f g : α → β) (l : List α) (h : ∀ a, f a = g a) :
    l.map f = l.map g := by
  induction l with
  | nil => rfl
  | cons a l ih => simp [h, ih]

theorem zipWith3_map_third (F : Bool → Value → Value → Value)
    (G : Bool → Value → Option Rat → Option Rat)
    (hF : ∀ m it no, F m it (numOpt no) = numOpt (G m it no))
    (mask : List Bool) :
    ∀ (its : List Value) (nos : List (Option Rat)),
      zipWith3 F mask its (nos.map numOpt) = (zipWith3 G mask its nos).map numOpt := by
  induction mask with
  | nil => intro its nos; cases its <;> cases nos <;> rfl
  | cons m mask ih =>
    intro its nos
    cases its <;> cases nos <;> simp [zipWith3, hF, ih]

theorem groupImputeCol_numOpt (items : List Value) (ms : List (Option Rat))
    (mask : List Bool) (nos : List (Option Rat)) :
    groupImputeCol items ms mask (nos.map numOpt) =
      (zipWith3
        (fun m it no =>
          if m then
            match it with
            | Value.null => none
            | key => ratMedian (groupVals items ms key)
          else no)
        mask items nos).map numOpt := by
  rw [groupImputeCol]
  refine zipWith3_map_third _ _ ?_ mask items nos
  intro m it no
  cases m with
  | false => rfl
  | true => cases it <;> rfl

theorem fillnaGlobalMedian_numOpt (sos : List (Option Rat)) :
    fillnaGlobalMedian (sos.map numOpt) =
      .ok ((sos.map fun so =>
        match so, ratMedian (sos.filterMap id) with
        | none, some g => some g
        | _, _ => so).map numOpt) := by
  rw [fillnaGlobalMedian]
  simp only [colNums_map_numOpt, ebind_ok]
  cases hg : ratMedian (sos.filterMap id) with
  | none =>
    simp only [List.map_map]
    exact congrArg _ (map_ext_on _ _ sos fun so => by cases so <;> rfl)
  | some g =>
    simp only [List.map_map]
    exact congrArg _ (map_ext_on _ _ sos fun so => by cases so <;> simp [numOpt])

/-- C4: the median-sentinel imputation on a numeric target column with an
`Item` grouping column first fills each pattern-matched row with its
group's median of the original column (missing when the row's `Item` is
missing or the group holds no number), then replaces every cell still
missing with the global median of the post-group column — and a cell that
is present after the group step is never changed by the fallback. -/
theorem imputation_median_spec (df : DataFrame) (col : String) (p : RePattern)
    (rid : Option String) (d rn : String) (nos : List (Option Rat)) (items : List Value)
    (hp : p.valid = true)
    (hcol : df.get? col = some (nos.map numOpt))
    (hitem : df.get? "Item" = some items) :
    let mask := (nos.map numOpt).map fun v => p.matchesFrom v.toText
    let step1 := zipWith3
      (fun m it no =>
        if m then
          match it with
          | Value.null => none
          | key => ratMedian (groupVals items nos key)
        else no)
      mask items nos
    let gm := ratMedian (step1.filterMap id)
    applyImputation df col (some p) (some "<MEDIAN_FROM_GROUP_OR_GLOBAL>") rid d rn =
      .ok (df.set col ((step1.map fun so =>
              match so, gm with
              | none, some g => some g
              | _, _ => so).map numOpt),
           ⟨rid, "imputation", col, none, some (mask.count true), d, rn⟩) ∧
    (∀ (i : Nat) (q : Rat), step1[i]? = some (some q) →
      ((step1.map fun so =>
          match so, gm with
          | none, some g => some g
          | _, _ => so).map numOpt)[i]? = some (Value.num q)) := by
  intro mask step1 gm
  constructor
  · rw [applyImputation, getColE]
    simp only [hcol, ebind_ok]
    rw [matchMask]
    simp only [hp, if_true, ebind_ok]
    rw [imputationCol]
    rw [if_neg (by decide), if_pos rfl]
    have hhas : df.hasCol "Item" = true := by simp [DataFrame.hasCol, hitem]
    have hgetd : df.getD "Item" = items := by rw [DataFrame.getD, hitem]; rfl
    simp only [hhas, if_true, colNums_map_numOpt, ebind_ok, epure_ok, hgetd,
               groupImputeCol_numOpt, fillnaGlobalMedian_numOpt]
  · intro i q hi
    simp only [List.getElem?_map, hi, Option.map_some]
    rfl

/-- C4 witness: group `A` supplies its median for the missing second row,
while group `C` has no usable median, so its two rows fall back to the
global median of the post-group column. -/
theorem imputation_median_spec_witness :
    applyImputation medianDF "Total Spent" (some nanPat)
        (some "<MEDIAN_FROM_GROUP_OR_GLOBAL>") (some "med") "" "" =
      .ok (medianDF.set "Total Spent"
             [Value.num 1, Value.num 1, Value.num 5, Value.num 1, Value.num 1],
           ⟨some "med", "imputation", "Total Spent", none, some 3, "", ""⟩) := by
  have h := imputation_median_spec medianDF "Total Spent" nanPat (some "med") "" ""
    [some 1, none, some 5, none, none]
    [Value.str "A", Value.str "A", Value.str "B", Value.str "C", Value.str "C"]
    rfl rfl rfl
  obtain ⟨h1, h2⟩ := h
  rw [h1]
  rfl

end RulesGen
